import Mathlib

/-!
Shallow embedding of the GossipApp repository (src/client.py, src/server.py,
src/telegram_interactions.py) and proofs of the claims the spec makes about it.

Modelling conventions:
* Bytes are `Fin 256`; byte streams are `List Byte`.
* Blocking I/O is modelled by oracles (functions from attempt/call index to an
  outcome) and by explicit event traces.
* The asyncio event loop serializes the continuation of each connection: in
  `handle_client` there is no `await` between the completion of the payload
  read and the barrier check, and `send_notification` is synchronous
  (`requests.post` / `time.sleep` block the whole loop), so the
  "store + barrier check + delivery + shutdown" sequence of one connection is a single atomic
  step.  An interleaving of connections is therefore a sequence of such atomic
  steps, processed in the order the frames of the peers were fully received.
-/

namespace GossipApp

abbrev Byte := Fin 256

/-- Models `message_length.to_bytes(4, big)` (client.py line 47,
server.py line 53).  Python raises OverflowError for `n ≥ 2^32`; the model
truncates instead, and every theorem using it assumes `n < 2^32`. -/
def toBytes4 (n : Nat) : List Byte :=
  [⟨n / 2 ^ 24 % 256, by omega⟩, ⟨n / 2 ^ 16 % 256, by omega⟩,
   ⟨n / 2 ^ 8 % 256, by omega⟩, ⟨n % 256, by omega⟩]

/-- Models `int.from_bytes(length_data, big)` (server.py line 26,
client.py line 69). -/
def fromBytes4 (bs : List Byte) : Nat :=
  bs.foldl (fun acc b => acc * 256 + b.val) 0

/-- Writing one frame: 4-byte big-endian length followed by the payload
(client.py `send_message` lines 43-53; server.py lines 50-58 for the ack). -/
def writeFrame (p : List Byte) : List Byte :=
  toBytes4 p.length ++ p

/-- Reading one frame: `readexactly(4)`, parse big-endian, `readexactly(len)`
(server.py lines 24-30; client.py `receive_message` lines 68-75).
`readexactly` raises IncompleteReadError when the stream is too short, which
the model renders as `none`.  Returns the payload and the unread remainder. -/
def readFrame (s : List Byte) : Option (List Byte × List Byte) :=
  if 4 ≤ s.length then
    let len := fromBytes4 (s.take 4)
    let rest := s.drop 4
    if len ≤ rest.length then some (rest.take len, rest.drop len) else none
  else none

theorem fromBytes4_toBytes4 (n : Nat) (h : n < 2 ^ 32) :
    fromBytes4 (toBytes4 n) = n := by
  simp only [toBytes4, fromBytes4, List.foldl_cons, List.foldl_nil]
  omega

/-- C4: writing a payload of length 0..65535 as a frame and reading one frame
back yields exactly the payload, byte for byte (with nothing left over). -/
theorem frame_roundtrip (p : List Byte) (h : p.length ≤ 65535) :
    readFrame (writeFrame p) = some (p, []) := by
  have h4 : (toBytes4 p.length).length = 4 := by simp [toBytes4]
  have htake : (writeFrame p).take 4 = toBytes4 p.length := by
    simp [writeFrame, List.take_append_of_le_length, h4]
  have hdrop : (writeFrame p).drop 4 = p := by
    rw [writeFrame, List.drop_append_of_le_length (by simp [h4])]
    simp [toBytes4]
  have hlen : fromBytes4 ((writeFrame p).take 4) = p.length := by
    rw [htake, fromBytes4_toBytes4 _ (by omega)]
  have hslen : 4 ≤ (writeFrame p).length := by
    simp [writeFrame, h4]
  simp [readFrame, hslen, hlen, hdrop]

theorem frame_roundtrip_witness :
    ([(65 : Byte), 66, 67] : List Byte).length ≤ 65535 ∧
      readFrame (writeFrame [(65 : Byte), 66, 67]) = some ([65, 66, 67], []) :=
  ⟨by decide, frame_roundtrip [65, 66, 67] (by decide)⟩

/-! ## ReliableTCPClient (src/client.py) -/

/-- Observable actions of `ReliableTCPClient.connect`: one dial attempt
(indexed from 0), or one `asyncio.sleep(reconnect_delay)`. -/
inductive ConnectEvent where
  | attempt (i : Nat)
  | sleep (d : Nat)
  deriving DecidableEq, Repr

/-- Outcome of one run of the retry loop of `connect`. -/
structure ConnectResult where
  trace : List ConnectEvent
  returned : Bool
  connected : Bool
  deriving DecidableEq, Repr

/-- Models `ReliableTCPClient.connect` (client.py lines 17-36): an unbounded
`while True` loop; each iteration dials once (`dial i = true` meaning the
`asyncio.wait_for(asyncio.open_connection ...)` succeeded, `false` meaning it
timed out or raised), and on failure sleeps `reconnect_delay` and retries.
The unbounded loop is modelled with fuel; exhausted fuel yields the artificial
result `⟨[], false, false⟩`, and every theorem supplies enough fuel to reach
the first successful attempt. -/
def connect (dial : Nat → Bool) (delay : Nat) : Nat → Nat → ConnectResult
  | _, 0 => ⟨[], false, false⟩
  | i, fuel + 1 =>
    if dial i then ⟨[.attempt i], true, true⟩
    else
      let r := connect dial delay (i + 1) fuel
      ⟨.attempt i :: .sleep delay :: r.trace, r.returned, r.connected⟩

/-- The trace `connect` should produce when attempts `start .. start+k-1` fail
and attempt `start+k` succeeds: each failed attempt followed by one sleep of
the configured delay, then the successful attempt. -/
def retryTrace (delay : Nat) : Nat → Nat → List ConnectEvent
  | start, 0 => [.attempt start]
  | start, k + 1 => .attempt start :: .sleep delay :: retryTrace delay (start + 1) k

def isAttempt : ConnectEvent → Bool
  | .attempt _ => true
  | .sleep _ => false

theorem connect_go (dial : Nat → Bool) (delay : Nat) :
    ∀ (k start : Nat), (∀ i, i < k → dial (start + i) = false) →
      dial (start + k) = true →
      connect dial delay start (k + 1) = ⟨retryTrace delay start k, true, true⟩ := by
  intro k
  induction k with
  | zero =>
    intro start _ hsucc
    simp only [Nat.add_zero] at hsucc
    simp [connect, hsucc, retryTrace]
  | succ k ih =>
    intro start hfail hsucc
    have h0 : dial start = false := by
      have := hfail 0 (by omega)
      simpa using this
    have hfail' : ∀ i, i < k → dial (start + 1 + i) = false := by
      intro i hi
      have := hfail (i + 1) (by omega)
      simpa [Nat.add_assoc, Nat.add_comm 1 i] using this
    have hsucc' : dial (start + 1 + k) = true := by
      have he : start + 1 + k = start + (k + 1) := by omega
      rw [he]; exact hsucc
    have hrec := ih (start + 1) hfail' hsucc'
    have step : connect dial delay start (k + 1 + 1) =
        ⟨.attempt start :: .sleep delay :: (connect dial delay (start + 1) (k + 1)).trace,
         (connect dial delay (start + 1) (k + 1)).returned,
         (connect dial delay (start + 1) (k + 1)).connected⟩ := by
      conv_lhs => rw [connect]
      rw [h0]
      simp
    rw [step, hrec, retryTrace]

theorem retryTrace_count (delay : Nat) :
    ∀ (start k : Nat), (retryTrace delay start k).countP (fun e => isAttempt e) = k + 1 := by
  intro start k
  induction k generalizing start with
  | zero => simp [retryTrace, isAttempt, List.countP_cons]
  | succ k ih =>
    rw [retryTrace, List.countP_cons, List.countP_cons, ih]
    simp [isAttempt]

/-- C5: if the first N dial attempts fail and attempt N+1 succeeds, `connect`
produces exactly the trace of attempts 0..N with one sleep of the configured
delay after each failed attempt (and none after the success), performs exactly
N+1 attempts, returns success, and marks the client connected. -/
theorem connect_retry (dial : Nat → Bool) (delay N : Nat)
    (hfail : ∀ i, i < N → dial i = false) (hsucc : dial N = true) :
    connect dial delay 0 (N + 1) = ⟨retryTrace delay 0 N, true, true⟩ ∧
      (retryTrace delay 0 N).countP (fun e => isAttempt e) = N + 1 := by
  constructor
  · have hf : ∀ i, i < N → dial (0 + i) = false := by
      intro i hi; simpa using hfail i hi
    have hs : dial (0 + N) = true := by simpa using hsucc
    exact connect_go dial delay N 0 hf hs
  · exact retryTrace_count delay 0 N

theorem connect_retry_witness :
    (∀ i, i < 2 → (fun j => j == 2) i = false) ∧ ((fun j => j == 2) 2 = true) ∧
      (connect (fun j => j == 2) 5 0 3 = ⟨retryTrace 5 0 2, true, true⟩ ∧
        (retryTrace 5 0 2).countP (fun e => isAttempt e) = 3) :=
  ⟨by decide, by decide, connect_retry (fun j => j == 2) 5 2 (by decide) (by decide)⟩

/-- The mutable per-client state of `ReliableTCPClient` that `send_message`
and `receive_message` touch: the `connected` flag and whether the
reader/writer streams are present (non-None). -/
structure ClientState where
  connected : Bool
  hasReader : Bool
  hasWriter : Bool
  deriving DecidableEq, Repr

/-- Errors a client operation can surface: `ConnectionError("Not connected to
server")` raised by the guard, or a transport exception re-raised by
`receive_message`. -/
inductive ClientError where
  | connectionError
  | transportError
  deriving DecidableEq, Repr

/-- Behaviour of the underlying stream during one send: the writes and drains
all succeed, or one of them raises. -/
inductive SendOutcome where
  | ok
  | fail
  deriving DecidableEq, Repr

/-- Behaviour of the underlying stream during one receive: both reads succeed
yielding a decoded response, or one raises. -/
inductive RecvOutcome where
  | ok (resp : String)
  | fail
  deriving DecidableEq, Repr

/-- Models `ReliableTCPClient.send_message` (client.py lines 38-62).  Returns the new
client state, the result (`Except.error` models an exception escaping the
method, `Except.ok b` models `return b`), and the number of transport
operations performed (0 when the not-connected guard fires, before any I/O).
On a transport failure inside the `try`, the client marks itself disconnected
and returns `False` instead of re-raising. -/
def send_message (st : ClientState) (_msg : String) (o : SendOutcome) :
    ClientState × Except ClientError Bool × Nat :=
  if st.connected && st.hasWriter then
    match o with
    | .ok => (st, .ok true, 2)
    | .fail => ({ st with connected := false }, .ok false, 1)
  else (st, .error .connectionError, 0)

/-- Models `ReliableTCPClient.receive_message` (client.py lines 64-85).  On a
transport failure inside the `try`, the client marks itself disconnected and
re-raises the exception (modelled as `Except.error .transportError`),
asymmetric with `send_message`. -/
def receive_message (st : ClientState) (o : RecvOutcome) :
    ClientState × Except ClientError String × Nat :=
  if st.connected && st.hasReader then
    match o with
    | .ok resp => (st, .ok resp, 2)
    | .fail => ({ st with connected := false }, .error .transportError, 1)
  else (st, .error .connectionError, 0)

/-- C7: on a transport failure while connected, `send_message` marks the
client disconnected and returns `false` without raising, while
`receive_message` marks the client disconnected and re-raises the failure. -/
theorem transport_failure_asymmetry (st : ClientState) (msg : String)
    (hc : st.connected = true) (hw : st.hasWriter = true) (hr : st.hasReader = true) :
    send_message st msg .fail = ({ st with connected := false }, .ok false, 1) ∧
      receive_message st .fail = ({ st with connected := false }, .error .transportError, 1) := by
  constructor
  · simp [send_message, hc, hw]
  · simp [receive_message, hc, hr]

theorem transport_failure_asymmetry_witness :
    (⟨true, true, true⟩ : ClientState).connected = true ∧
      (send_message ⟨true, true, true⟩ "hi" .fail = (⟨false, true, true⟩, .ok false, 1) ∧
        receive_message ⟨true, true, true⟩ .fail = (⟨false, true, true⟩, .error .transportError, 1)) :=
  ⟨rfl, transport_failure_asymmetry ⟨true, true, true⟩ "hi" rfl rfl rfl⟩

/-- C9: calling `send_message` or `receive_message` while not connected (flag
false or the relevant stream absent) raises `ConnectionError` with zero
transport operations performed and leaves the client state unchanged. -/
theorem not_connected_guard (st : ClientState) (msg : String)
    (o : SendOutcome) (ro : RecvOutcome) :
    (st.connected = false ∨ st.hasWriter = false →
      send_message st msg o = (st, .error .connectionError, 0)) ∧
    (st.connected = false ∨ st.hasReader = false →
      receive_message st ro = (st, .error .connectionError, 0)) := by
  constructor
  · intro h
    rcases h with h | h <;> simp [send_message, h]
  · intro h
    rcases h with h | h <;> simp [receive_message, h]

theorem not_connected_guard_witness :
    ((⟨false, true, true⟩ : ClientState).connected = false ∨
        (⟨false, true, true⟩ : ClientState).hasWriter = false) ∧
      send_message ⟨false, true, true⟩ "hi" .ok = (⟨false, true, true⟩, .error .connectionError, 0) ∧
      receive_message ⟨false, true, true⟩ (.ok "r") = (⟨false, true, true⟩, .error .connectionError, 0) :=
  ⟨Or.inl rfl,
    (not_connected_guard ⟨false, true, true⟩ "hi" .ok (.ok "r")).1 (Or.inl rfl),
    (not_connected_guard ⟨false, true, true⟩ "hi" .ok (.ok "r")).2 (Or.inl rfl)⟩

/-! ## OutboundNotifier (src/telegram_interactions.py) -/

/-- Outcome of one `requests.post` call: HTTP 200, a non-200 status, a
timeout, or another request exception. -/
inductive CallOutcome where
  | success
  | badStatus (code : Nat)
  | timeout
  | reqError
  deriving DecidableEq, Repr

/-- Observable actions of `send_notification`: one external call (indexed
from 0) or one `time.sleep(delay)`. -/
inductive NotifyEvent where
  | attempt (i : Nat)
  | sleep (d : Nat)
  deriving DecidableEq, Repr

/-- The `for attempt in range(max_attempts)` body of `send_notification`
(telegram_interactions.py lines 27-44), recursing on the number of remaining
iterations: on HTTP 200 return `True` immediately; otherwise sleep `delay`
before the next attempt, except after the final one, and return `False` when
the attempts are exhausted. -/
def notifyGo (orc : Nat → CallOutcome) (delay : Nat) : Nat → Nat → List NotifyEvent × Bool
  | 0, _ => ([], false)
  | remaining + 1, attempt =>
    match orc attempt with
    | .success => ([.attempt attempt], true)
    | _ =>
      if remaining = 0 then ([.attempt attempt], false)
      else
        let rest := notifyGo orc delay remaining (attempt + 1)
        (.attempt attempt :: .sleep delay :: rest.1, rest.2)

/-- Models `send_notification` (telegram_interactions.py lines 21-46):
`max_attempts = 3`, `delay = 5`. -/
def send_notification (orc : Nat → CallOutcome) : List NotifyEvent × Bool :=
  notifyGo orc 5 3 0

/-- C6: against an external channel that fails on every call (non-200 status,
timeout, or request error), `send_notification` performs exactly 3 attempts,
sleeps the fixed delay between consecutive attempts but not after the final
one, and returns false. -/
theorem notifier_exhaustion (orc : Nat → CallOutcome)
    (h : ∀ i, orc i ≠ .success) :
    send_notification orc =
      ([.attempt 0, .sleep 5, .attempt 1, .sleep 5, .attempt 2], false) := by
  have h0 := h 0
  have h1 := h 1
  have h2 := h 2
  cases o0 : orc 0 <;> cases o1 : orc 1 <;> cases o2 : orc 2 <;>
    simp_all [send_notification, notifyGo]

theorem notifier_exhaustion_witness :
    (∀ i, (fun _ : Nat => CallOutcome.timeout) i ≠ .success) ∧
      send_notification (fun _ : Nat => CallOutcome.timeout) =
        ([.attempt 0, .sleep 5, .attempt 1, .sleep 5, .attempt 2], false) :=
  ⟨fun _ => by simp,
    notifier_exhaustion (fun _ : Nat => CallOutcome.timeout) (fun _ => by simp)⟩

/-! ## Coordinator (src/server.py) -/

/-- The mutable state of `Coordinator` from `__init__` (server.py lines 7-12),
plus `serverClosed` recording whether `initiate_shutdown` has closed the
listening socket.  `client_messages` is a Python dict keyed by
"host:port"; it is modelled as an association list in insertion order, which
is exactly the order `dict.values()` enumerates. -/
structure Coordinator where
  client_messages : List (String × String)
  expected_clients : Nat
  message_sent : Bool
  shutdown_requested : Bool
  hasServer : Bool
  serverClosed : Bool
  deriving DecidableEq, Repr

/-- The coordinator as constructed by `Coordinator.__init__` with the server
reference stored by `main` (server.py lines 125-131). -/
def initialCoordinator : Coordinator :=
  { client_messages := []
    expected_clients := 2
    message_sent := false
    shutdown_requested := false
    hasServer := true
    serverClosed := false }

/-- Models the dict assignment on client_messages (server.py line 35): Python
dict assignment replaces the value of an existing key in place, keeping its
insertion position; a new key is appended at the end. -/
def storeMessage (m : List (String × String)) (cid msg : String) :
    List (String × String) :=
  if m.any (fun p => p.1 == cid) then
    m.map (fun p => if p.1 == cid then (cid, msg) else p)
  else m ++ [(cid, msg)]

/-- Models the space join of the dict values (server.py line 84). -/
def joinSpace : List String → String
  | [] => ""
  | [x] => x
  | x :: y :: xs => x ++ " " ++ joinSpace (y :: xs)

/-- The fixed text `initiate_shutdown` hands to the notifier
(server.py line 112). -/
def shutdownMessage : String :=
  "Server shutting down after successful message combination"

/-- Models `Coordinator.send_combined_message` (server.py lines 71-101).  `creds`
models the truthiness of `config.TELEGRAM_BOT_TOKEN and
config.TELEGRAM_CHAT_ID`; `orc` models the external channel, consulted at the
index of the next notifier call; `log` is the list of payloads passed to
`send_notification` so far.  Note the code sets `message_sent := True` only
when the notifier succeeds (or when credentials are absent), but clears
`client_messages` unconditionally. -/
def send_combined_message (creds : Bool) (orc : Nat → Bool)
    (st : Coordinator) (log : List String) : Coordinator × List String :=
  if st.client_messages.length < st.expected_clients then (st, log)
  else if st.message_sent then (st, log)
  else
    let combined := joinSpace (st.client_messages.map (fun p => p.2))
    if creds then
      let success := orc log.length
      let st' := if success then { st with message_sent := true } else st
      ({ st' with client_messages := [] }, log ++ [combined])
    else
      ({ st with message_sent := true, client_messages := [] }, log)

/-- Models `Coordinator.initiate_shutdown` (server.py lines 103-122): idempotent via
the `shutdown_requested` guard; sends the shutdown notice through the same
notifier when credentials are configured (its success value is ignored), and
closes the listening socket when the server reference is set. -/
def initiate_shutdown (creds : Bool) (st : Coordinator) (log : List String) :
    Coordinator × List String :=
  if st.shutdown_requested then (st, log)
  else
    let st₁ := { st with shutdown_requested := true }
    let log₁ := if creds then log ++ [shutdownMessage] else log
    let st₂ := if st₁.hasServer then { st₁ with serverClosed := true } else st₁
    (st₂, log₁)

/-- Observable per-connection actions of `handle_client`. -/
inductive ConnEvent where
  | readLen
  | readPayload
  | wroteAck
  | closed
  deriving DecidableEq, Repr

/-- Models `Coordinator.handle_client` (server.py lines 14-69) on the happy path
(both reads succeed): if shutdown was requested, return immediately — the
`finally` block closes the connection without any read or ack.  Otherwise
read one frame, store the message under the peer identity, and when the
barrier condition `len(client_messages) >= expected_clients and not
message_sent` holds, run `send_combined_message` then `initiate_shutdown`
(the latter unconditionally after the former, whatever the notifier
reported).  Finally write the fixed acknowledgment frame and close. -/
def handle_client (creds : Bool) (orc : Nat → Bool) (st : Coordinator)
    (log : List String) (cid msg : String) :
    Coordinator × List String × List ConnEvent :=
  if st.shutdown_requested then (st, log, [.closed])
  else
    let st₁ := { st with client_messages := storeMessage st.client_messages cid msg }
    let (st₂, log₂) :=
      if st₁.expected_clients ≤ st₁.client_messages.length && !st₁.message_sent then
        let (sta, loga) := send_combined_message creds orc st₁ log
        initiate_shutdown creds sta loga
      else (st₁, log)
    (st₂, log₂, [.readLen, .readPayload, .wroteAck, .closed])

/-- One interleaving of connections: the atomic per-connection steps of
`handle_client`, applied in the order the frames were fully received
(the asyncio loop serializes them — see the header comment). -/
def runConns (creds : Bool) (orc : Nat → Bool) :
    Coordinator → List String → List (String × String) → Coordinator × List String
  | st, log, [] => (st, log)
  | st, log, (cid, msg) :: rest =>
    let r := handle_client creds orc st log cid msg
    runConns creds orc r.1 r.2.1 rest

theorem map_keep_of_no_key (k v : String) :
    ∀ (m : List (String × String)), (∀ p ∈ m, p.1 ≠ k) →
      m.map (fun p => if p.1 == k then (k, v) else p) = m := by
  intro m
  induction m with
  | nil => intro _; rfl
  | cons hd tl ih =>
    intro h
    have hhd : (hd.1 == k) = false := by
      have := h hd (by simp)
      simp [this]
    have htl := ih (fun p hp => h p (by simp [hp]))
    rw [List.map_cons, htl, hhd]
    simp

/-- C10: when a peer identity already present sends again before the barrier
fires, `storeMessage` replaces its stored value in place: the identity keeps
its original insertion position, the entry count (distinct-peer count) is
unchanged, and the space-joined payload carries the new message at the
original position. -/
theorem resend_overwrites_in_place (m₁ m₂ : List (String × String))
    (k v₁ v₂ : String)
    (h₁ : ∀ p ∈ m₁, p.1 ≠ k) (h₂ : ∀ p ∈ m₂, p.1 ≠ k) :
    storeMessage (m₁ ++ (k, v₁) :: m₂) k v₂ = m₁ ++ (k, v₂) :: m₂ ∧
      (storeMessage (m₁ ++ (k, v₁) :: m₂) k v₂).length =
        (m₁ ++ (k, v₁) :: m₂).length ∧
      joinSpace ((storeMessage (m₁ ++ (k, v₁) :: m₂) k v₂).map (fun p => p.2)) =
        joinSpace (m₁.map (fun p => p.2) ++ v₂ :: m₂.map (fun p => p.2)) := by
  have hany : (m₁ ++ (k, v₁) :: m₂).any (fun p => p.1 == k) = true := by
    simp
  have hmain : storeMessage (m₁ ++ (k, v₁) :: m₂) k v₂ = m₁ ++ (k, v₂) :: m₂ := by
    rw [storeMessage, if_pos hany, List.map_append, List.map_cons]
    rw [map_keep_of_no_key k v₂ m₁ h₁, map_keep_of_no_key k v₂ m₂ h₂]
    simp
  refine ⟨hmain, ?_, ?_⟩
  · rw [hmain]; simp
  · rw [hmain]; simp

theorem resend_overwrites_in_place_witness :
    (∀ p ∈ [(("a" : String), ("x" : String))], p.1 ≠ "b") ∧
      storeMessage [("a", "x"), ("b", "old"), ("c", "z")] "b" "new" =
        [("a", "x"), ("b", "new"), ("c", "z")] :=
  ⟨by decide,
    (resend_overwrites_in_place [("a", "x")] [("c", "z")] "b" "old" "new"
      (by decide) (by decide)).1⟩

/-- C8: a connection whose handling begins after the shutdown flag is set
(the mapping already cleared by the delivery) is closed without any frame
read and without any acknowledgment written, and leaves the aggregation
mapping unchanged — still empty. -/
theorem late_peer_rejected (creds : Bool) (orc : Nat → Bool) (st : Coordinator)
    (log : List String) (cid msg : String)
    (h : st.shutdown_requested = true) (he : st.client_messages = []) :
    handle_client creds orc st log cid msg = (st, log, [.closed]) ∧
      (handle_client creds orc st log cid msg).1.client_messages = [] := by
  have hmain : handle_client creds orc st log cid msg = (st, log, [.closed]) := by
    simp [handle_client, h]
  exact ⟨hmain, by rw [hmain]; exact he⟩

theorem late_peer_rejected_witness :
    ({ initialCoordinator with shutdown_requested := true } : Coordinator).shutdown_requested = true ∧
      handle_client true (fun _ : Nat => true)
          { initialCoordinator with shutdown_requested := true } [] "c" "late" =
        ({ initialCoordinator with shutdown_requested := true }, [], [.closed]) :=
  ⟨rfl,
    (late_peer_rejected true (fun _ : Nat => true)
      { initialCoordinator with shutdown_requested := true } [] "c" "late" rfl rfl).1⟩

/-- C2 counterexample: a full 2-peer round whose notifier fails on every call
leaves the delivered flag false (the code sets `message_sent` only on
notifier success), contradicting the claim that it is marked true regardless
of notifier outcome. -/
theorem delivered_flag_stays_false_on_failure :
    (runConns true (fun _ : Nat => false) initialCoordinator []
        [("a", "x"), ("b", "y")]).1.message_sent = false := by
  decide

/-- C2 as amended: after the barrier fires, the recorded messages are cleared
regardless of the notifier outcome, but the delivered flag becomes true only
when credentials are absent or the notifier call succeeds. -/
theorem delivery_clears_and_conditionally_marks (creds : Bool)
    (orc : Nat → Bool) (st : Coordinator) (log : List String)
    (h1 : st.expected_clients ≤ st.client_messages.length)
    (h2 : st.message_sent = false) :
    (send_combined_message creds orc st log).1.client_messages = [] ∧
      (send_combined_message creds orc st log).1.message_sent =
        (!creds || orc log.length) := by
  have hlt : ¬ st.client_messages.length < st.expected_clients := by omega
  cases creds with
  | true =>
    cases horc : orc log.length <;>
      simp [send_combined_message, hlt, h2, horc]
  | false =>
    simp [send_combined_message, hlt, h2]

theorem delivery_clears_and_conditionally_marks_witness :
    ({ initialCoordinator with client_messages := [("a", "x"), ("b", "y")] } : Coordinator).expected_clients ≤ 2 ∧
      ((send_combined_message true (fun _ : Nat => false)
          { initialCoordinator with client_messages := [("a", "x"), ("b", "y")] } []).1.client_messages = [] ∧
        (send_combined_message true (fun _ : Nat => false)
          { initialCoordinator with client_messages := [("a", "x"), ("b", "y")] } []).1.message_sent =
          (!true || (fun _ : Nat => false) 0)) :=
  ⟨by decide,
    delivery_clears_and_conditionally_marks true (fun _ : Nat => false)
      { initialCoordinator with client_messages := [("a", "x"), ("b", "y")] } []
      (by decide) rfl⟩

/-- C3 counterexample: a round whose external delivery call failed on every
attempt (so the combined message was never sent: `message_sent = false`)
still enters the shutdown transition — `handle_client` calls
`initiate_shutdown` unconditionally after `send_combined_message` returns,
contradicting the claim that shutdown is not entered after a failed
delivery. -/
theorem shutdown_entered_after_failed_delivery :
    (runConns true (fun _ : Nat => false) initialCoordinator []
        [("a", "x"), ("b", "y")]).1.shutdown_requested = true ∧
      (runConns true (fun _ : Nat => false) initialCoordinator []
        [("a", "x"), ("b", "y")]).1.message_sent = false := by
  decide

/-- C1 counterexample: with credentials configured and an always-succeeding
channel, a round of two concurrent peers invokes the notifier twice, not
once — once with the combined payload and once with the fixed shutdown
notice that `initiate_shutdown` sends through the same notifier. -/
theorem notifier_invoked_twice :
    (runConns true (fun _ : Nat => true) initialCoordinator []
        [("a", "Hello"), ("b", "World")]).2 =
      ["Hello World", shutdownMessage] ∧
      (runConns true (fun _ : Nat => true) initialCoordinator []
        [("a", "Hello"), ("b", "World")]).2.length ≠ 1 := by
  decide

/-- C1 as amended: for every interleaving of exactly 2 concurrent peer
connections sending distinct messages (credentials configured, any notifier
behaviour), the full list of notifier invocations is exactly: one carrying
the two messages joined by a single space in the order their frames were
fully received, followed by one carrying the fixed shutdown notice. -/
theorem barrier_single_delivery (c₁ c₂ m₁ m₂ : String) (orc : Nat → Bool)
    (hc : c₁ ≠ c₂) (_hm : m₁ ≠ m₂) :
    (runConns true orc initialCoordinator [] [(c₁, m₁), (c₂, m₂)]).2 =
      [m₁ ++ " " ++ m₂, shutdownMessage] := by
  have hbeq : (c₁ == c₂) = false := by simp [hc]
  cases horc : orc 0 <;>
    simp [runConns, handle_client, storeMessage, send_combined_message,
      initiate_shutdown, initialCoordinator, joinSpace, hbeq, horc]

theorem barrier_single_delivery_witness :
    ("a" : String) ≠ "b" ∧
      (runConns true (fun _ : Nat => false) initialCoordinator []
          [("a", "Hello"), ("b", "World")]).2 =
        ["Hello" ++ " " ++ "World", shutdownMessage] :=
  ⟨by decide,
    barrier_single_delivery "a" "b" "Hello" "World" (fun _ : Nat => false)
      (by decide) (by decide)⟩

/-- C3 as amended: the coordinator enters its shutdown transition (shutdown
flag set, listening socket closed) immediately after the barrier delivery
attempt completes, regardless of whether the external call succeeded or
failed (the notifier behaviour `orc` is arbitrary). -/
theorem shutdown_after_barrier (c₁ c₂ m₁ m₂ : String) (orc : Nat → Bool)
    (hc : c₁ ≠ c₂) :
    (runConns true orc initialCoordinator [] [(c₁, m₁), (c₂, m₂)]).1.shutdown_requested = true ∧
      (runConns true orc initialCoordinator [] [(c₁, m₁), (c₂, m₂)]).1.serverClosed = true := by
  have hbeq : (c₁ == c₂) = false := by simp [hc]
  cases horc : orc 0 <;>
    simp [runConns, handle_client, storeMessage, send_combined_message,
      initiate_shutdown, initialCoordinator, hbeq, horc]

theorem shutdown_after_barrier_witness :
    ("a" : String) ≠ "b" ∧
      ((runConns true (fun _ : Nat => true) initialCoordinator []
          [("a", "x"), ("b", "y")]).1.shutdown_requested = true ∧
        (runConns true (fun _ : Nat => true) initialCoordinator []
          [("a", "x"), ("b", "y")]).1.serverClosed = true) :=
  ⟨by decide,
    shutdown_after_barrier "a" "b" "x" "y" (fun _ : Nat => true) (by decide)⟩

end GossipApp
